import Mathlib

/-!
Verification of the real-time collaborative synchronization subsystem of the
DevSync repository against its natural-language specification.

The development shallowly embeds the three Python modules that implement the
subsystem:

* `app/middleware/rate_limit.py` — the in-memory fixed-window rate limiter
  (`RateLimiter._check_rate_limit_memory`);
* `app/collaboration/yjs_server.py` — the binary-protocol room (`YjsRoom`)
  and its registry (`YjsRoomManager`);
* `app/collaboration/session_manager.py` — the JSON presence session
  (`CollaborationSession`) and its registry (`CollaborationManager`).

Modelling conventions:

* Python `bytes` become `List Nat`; byte values are opaque payload data.
* Python `dict`s (which preserve insertion order, update values in place and
  append new keys at the end) become association lists `List (String × α)`
  manipulated by `lookupA` / `setA` / `eraseA`.  All reachable dictionaries
  have pairwise-distinct keys, so erasing by filtering every matching key
  agrees with Python's single-key `del`.
* A websocket send to client `c` is modelled by a failure predicate
  `fails : String → Bool` (the injected failing sink of the spec's §8
  property) together with a delivery log `List (recipient × message)`;
  `fails c = true` models `send` raising, which the Python code catches —
  hence the embedded operations are total and never propagate a send error.
* Clock reads (`time.time()` / `datetime.utcnow()`) within one operation are
  collapsed into a single explicit `now` argument.
* The recursion `broadcast → remove_client → broadcast …` (a send failure
  triggers removal, whose departure notification is itself a broadcast) is
  embedded with an explicit fuel argument; each nested level strictly
  decreases the client count in the source, and exported wrappers supply
  fuel `clients.length + 1`, which the theorems show is always sufficient
  under their hypotheses.
-/

/-- First value bound to `key`, mirroring Python `d.get(key)` / `d[key]`. -/
def lookupA {α : Type} : List (String × α) → String → Option α
  | [], _ => none
  | (k, v) :: rest, key => if k = key then some v else lookupA rest key

/-- Python `d[key] = v`: replace the value at an existing key in place
(keeping its position), or append a fresh binding at the end. -/
def setA {α : Type} : List (String × α) → String → α → List (String × α)
  | [], key, v => [(key, v)]
  | (k, w) :: rest, key, v =>
    if k = key then (k, v) :: rest else (k, w) :: setA rest key v

/-- Python `del d[key]` on a dictionary with distinct keys. -/
def eraseA {α : Type} (m : List (String × α)) (key : String) : List (String × α) :=
  m.filter (fun p => ! (p.1 == key))

@[simp] theorem lookupA_nil {α : Type} (key : String) :
    lookupA ([] : List (String × α)) key = none := rfl

theorem lookupA_setA_self {α : Type} (m : List (String × α)) (key : String) (v : α) :
    lookupA (setA m key v) key = some v := by
  induction m with
  | nil => simp [setA, lookupA]
  | cons p rest ih =>
    by_cases h : p.1 = key
    · simp [setA, h, lookupA]
    · simp [setA, h, lookupA, ih]

theorem lookupA_setA_ne {α : Type} (m : List (String × α)) (key key' : String) (v : α)
    (h : key ≠ key') : lookupA (setA m key v) key' = lookupA m key' := by
  induction m with
  | nil => simp [setA, lookupA, h]
  | cons p rest ih =>
    by_cases hp : p.1 = key
    · simp [setA, hp, lookupA, h]
    · simp [setA, hp, lookupA, ih]

/-! ## Rate limiter (`app/middleware/rate_limit.py`) -/

/-- `RateLimitConfig` dataclass. -/
structure RateLimitConfig where
  max_requests : Nat
  window_seconds : Nat
  block_duration_seconds : Nat
deriving DecidableEq, Repr

/-- `RateLimitEntry` dataclass.  Times (`time.time()` floats in the source)
are modelled as integers. -/
structure RateLimitEntry where
  requests : Nat
  window_start : Int
  blocked_until : Option Int
deriving DecidableEq, Repr

/-- The two rejection messages `_check_rate_limit_memory` can produce:
`"Try again in {remaining} seconds"` while a block is active, and
`"Blocked for {block_duration} seconds"` when a block is (re)triggered. -/
inductive RLReason where
  | tryAgainIn (remaining : Int)
  | blockedFor (seconds : Nat)
deriving DecidableEq, Repr

/-- Python truthiness of `entry.blocked_until` (`None` and `0.0` are falsy). -/
def blockedTruthy : Option Int → Bool
  | none => false
  | some b => ! (b == 0)

/-- Body of `RateLimiter._check_rate_limit_memory` for a single client's
entry.  `e0 = none` models `client_id not in self.clients`, in which case a
fresh `RateLimitEntry()` with `window_start = now` is created first.
Returns the `(is_allowed, error_message)` pair and the mutated entry. -/
def rlCheckEntry (cfg : RateLimitConfig) (now : Int) (e0 : Option RateLimitEntry) :
    (Bool × Option RLReason) × RateLimitEntry :=
  let entry := e0.getD ⟨0, now, none⟩
  match entry.blocked_until with
  | some b =>
    if blockedTruthy (some b) && decide (now < b) then
      ((false, some (.tryAgainIn (b - now))), entry)
    else
      rlCheckStep cfg now entry
  | none => rlCheckStep cfg now entry
where
  /-- The window-reset / increment / limit-check tail of the source body. -/
  rlCheckStep (cfg : RateLimitConfig) (now : Int) (entry : RateLimitEntry) :
      (Bool × Option RLReason) × RateLimitEntry :=
    let e1 := if now - entry.window_start > (cfg.window_seconds : Int)
      then { requests := 0, window_start := now, blocked_until := none }
      else entry
    let e2 := { e1 with requests := e1.requests + 1 }
    if e2.requests > cfg.max_requests then
      ((false, some (.blockedFor cfg.block_duration_seconds)),
        { e2 with blocked_until := some (now + (cfg.block_duration_seconds : Int)) })
    else
      ((true, none), e2)

/-- `_check_rate_limit_memory` over the `self.clients` dictionary. -/
def checkRateLimitMemory (cfg : RateLimitConfig) (now : Int) (cid : String)
    (clients : List (String × RateLimitEntry)) :
    (Bool × Option RLReason) × List (String × RateLimitEntry) :=
  let r := rlCheckEntry cfg now (lookupA clients cid)
  (r.1, setA clients cid r.2)

/-- A sequence of checks for one client, threading its entry through. -/
def runEntryChecks (cfg : RateLimitConfig) :
    List Int → Option RateLimitEntry → List (Bool × Option RLReason) × Option RateLimitEntry
  | [], e => ([], e)
  | t :: ts, e =>
    let r := rlCheckEntry cfg t e
    let rest := runEntryChecks cfg ts (some r.2)
    (r.1 :: rest.1, rest.2)

/-! ## Binary-protocol room (`app/collaboration/yjs_server.py`) -/

/-- Yjs message bytes. -/
abbrev Bytes := List Nat

/-- Message type constants of the y-websocket protocol (module level). -/
def MESSAGE_SYNC : Nat := 0
def MESSAGE_AWARENESS : Nat := 1
def MESSAGE_AUTH : Nat := 2
def MESSAGE_QUERY_AWARENESS : Nat := 3

/-- `YjsRoom` state.  The `clients` dictionary maps client ids to `YjsClient`
records whose fields (websocket handle, user name, colour, timestamps) never
influence the room logic — sends are modelled by recipient id and the
failure predicate — so only the ordered key list is kept.  `lastActivity`
is the room-level `last_activity` timestamp. -/
structure YState where
  room_id : String
  file_path : String
  clients : List String
  document_state : Option Bytes
  awareness_states : List (String × Bytes)
  lastActivity : Nat
deriving DecidableEq, Repr

/-- Delivery log of a room operation: `(recipient client id, message bytes)`
for every `websocket.send_bytes` that succeeded, in send order. -/
abbrev YLog := List (String × Bytes)

/-- `YjsRoom.__init__`. -/
def initRoom (room_id file_path : String) (now : Nat) : YState :=
  { room_id := room_id, file_path := file_path, clients := [],
    document_state := none, awareness_states := [], lastActivity := now }

/-- Python truthiness of `self.document_state` (`None` and `b''` are falsy). -/
def docTruthy : Option Bytes → Bool
  | none => false
  | some bs => ! bs.isEmpty

/-- The fan-out loop inside `broadcast`: walk the (snapshot) client list,
skip the excluded client, deliver to clients whose send succeeds, and
collect the clients whose send raised into the `disconnected` list.
Shared between the binary room and the JSON session. -/
def sendLoop {μ : Type} (fails : String → Bool) (msg : μ) (exclude : Option String) :
    List String → List (String × μ) × List String
  | [] => ([], [])
  | c :: rest =>
    if some c = exclude then
      sendLoop fails msg exclude rest
    else if fails c then
      let r := sendLoop fails msg exclude rest
      (r.1, c :: r.2)
    else
      let r := sendLoop fails msg exclude rest
      ((c, msg) :: r.1, r.2)

/-- Python dict key insertion: `d[k] = v` keeps the key order if `k` exists
(the associated `YjsClient` value is replaced) and appends `k` otherwise. -/
def setK (l : List String) (k : String) : List String :=
  if k ∈ l then l else l ++ [k]

mutual

/-- `YjsRoom.broadcast(message, exclude_client)`: best-effort fan-out over
`self.clients.items()`, then `remove_client` for every collected
disconnected client. -/
def yBroadcastF (fails : String → Bool) (fuel : Nat) (msg : Bytes)
    (exclude : Option String) (st : YState) : YState × YLog :=
  let r := sendLoop fails msg exclude st.clients
  let r2 := yRemoveAllF fails fuel r.2 st
  (r2.1, r.1 ++ r2.2)
termination_by (fuel, 2, 0)

/-- The clean-up tail of `broadcast`: `for cid in disconnected:
await self.remove_client(cid)`. -/
def yRemoveAllF (fails : String → Bool) (fuel : Nat) (ds : List String)
    (st : YState) : YState × YLog :=
  match ds with
  | [] => (st, [])
  | d :: rest =>
    let r1 := yRemoveClientF fails fuel d st
    let r2 := yRemoveAllF fails fuel rest r1.1
    (r2.1, r1.2 ++ r2.2)
termination_by (fuel, 1, ds.length)

/-- `YjsRoom.remove_client(client_id)`: if present, delete the client and
its awareness state, then `broadcast_awareness_update(client_id, None)`,
which broadcasts `bytes([MESSAGE_AWARENESS]) + b''` to everyone left.
Idempotent: unknown ids are a no-op.  At fuel 0 (never reached from the
exported wrappers) the nested broadcast is skipped. -/
def yRemoveClientF (fails : String → Bool) (fuel : Nat) (cid : String)
    (st : YState) : YState × YLog :=
  match fuel with
  | 0 => (st, [])
  | fuel + 1 =>
    if cid ∈ st.clients then
      let st1 : YState :=
        { st with clients := st.clients.filter (fun c => ! (c == cid)),
                  awareness_states := eraseA st.awareness_states cid }
      yBroadcastF fails fuel [MESSAGE_AWARENESS] none st1
    else
      (st, [])
termination_by (fuel, 0, 0)

end

/-- `YjsRoom.add_client(client)`: register the client, refresh
`last_activity`, and, if a (truthy) document state exists, send that client
a `send_sync_step1` push `bytes([MESSAGE_SYNC, 0]) + document_state`
(whose send failure is caught and does not remove the client). -/
def yAddClient (fails : String → Bool) (cid : String) (now : Nat)
    (st : YState) : YState × YLog :=
  let st1 := { st with clients := setK st.clients cid, lastActivity := now }
  if docTruthy st1.document_state then
    if fails cid then (st1, [])
    else (st1, [(cid, [MESSAGE_SYNC, 0] ++ st1.document_state.getD [])])
  else
    (st1, [])

/-- `YjsRoom.send_sync_step2(client_id, state_vector)`: look the client up
(unknown ids are a no-op), and if a (truthy) document state exists send it
as `bytes([MESSAGE_SYNC, 1]) + document_state`; a send failure is caught
without removing the client.  The `state_vector` parameter is never read by
the source body, so it is omitted here. -/
def ySendSyncStep2 (fails : String → Bool) (cid : String) (st : YState) :
    YState × YLog :=
  if cid ∈ st.clients then
    if docTruthy st.document_state then
      if fails cid then (st, [])
      else (st, [(cid, [MESSAGE_SYNC, 1] ++ st.document_state.getD [])])
    else (st, [])
  else (st, [])

/-- `YjsRoom.handle_sync_message(client_id, data)`.  Sub-type 0 requests the
state; sub-types 1 and 2 both store the payload as the new document state
(both arms of the source's `if self.document_state is None` assign the
payload — the "merge" comment notwithstanding) and broadcast
`bytes([MESSAGE_SYNC, 2]) + payload` to every other client; any other
sub-type falls through with no effect. -/
def yHandleSyncF (fails : String → Bool) (fuel : Nat) (cid : String)
    (data : Bytes) (st : YState) : YState × YLog :=
  match data with
  | [] => (st, [])
  | s :: payload =>
    if s = 0 then
      ySendSyncStep2 fails cid st
    else if s = 1 then
      let st1 := { st with document_state := some payload }
      yBroadcastF fails fuel ([MESSAGE_SYNC, 2] ++ payload) (some cid) st1
    else if s = 2 then
      let st1 := { st with document_state := some payload }
      yBroadcastF fails fuel ([MESSAGE_SYNC, 2] ++ payload) (some cid) st1
    else (st, [])

/-- `YjsRoom.handle_awareness_message(client_id, data)`: store the blob for
the sender and broadcast `bytes([MESSAGE_AWARENESS]) + data` to the others. -/
def yHandleAwarenessF (fails : String → Bool) (fuel : Nat) (cid : String)
    (data : Bytes) (st : YState) : YState × YLog :=
  let st1 := { st with awareness_states := setA st.awareness_states cid data }
  yBroadcastF fails fuel ([MESSAGE_AWARENESS] ++ data) (some cid) st1

/-- `YjsRoom.handle_message(client_id, message)`: empty frames are ignored;
otherwise `last_activity` is refreshed and the frame is dispatched on its
type byte.  `MESSAGE_AUTH` frames reach `handle_auth_message`, whose body is
`pass`; unknown type bytes (including the declared `MESSAGE_QUERY_AWARENESS`)
are logged and dropped. -/
def yHandleMessageF (fails : String → Bool) (fuel : Nat) (now : Nat)
    (cid : String) (message : Bytes) (st : YState) : YState × YLog :=
  match message with
  | [] => (st, [])
  | t :: rest =>
    let st1 := { st with lastActivity := now }
    if t = MESSAGE_SYNC then yHandleSyncF fails fuel cid rest st1
    else if t = MESSAGE_AWARENESS then yHandleAwarenessF fails fuel cid rest st1
    else if t = MESSAGE_AUTH then (st1, [])
    else (st1, [])

/-- Exported `broadcast` with sufficient fuel. -/
def yBroadcast (fails : String → Bool) (msg : Bytes) (exclude : Option String)
    (st : YState) : YState × YLog :=
  yBroadcastF fails (st.clients.length + 1) msg exclude st

/-- Exported `remove_client` with sufficient fuel. -/
def yRemoveClient (fails : String → Bool) (cid : String) (st : YState) :
    YState × YLog :=
  yRemoveClientF fails (st.clients.length + 1) cid st

/-- Exported `handle_message` with sufficient fuel. -/
def yHandleMessage (fails : String → Bool) (now : Nat) (cid : String)
    (message : Bytes) (st : YState) : YState × YLog :=
  yHandleMessageF fails (st.clients.length + 1) now cid message st

/-! ## Room registry (`YjsRoomManager`) -/

/-- `YjsRoom.get_client_count`. -/
def getClientCount (st : YState) : Nat := st.clients.length

/-- `YjsRoomManager.get_or_create_room`. -/
def getOrCreateRoom (room_id file_path : String) (now : Nat)
    (rooms : List (String × YState)) : List (String × YState) × YState :=
  match lookupA rooms room_id with
  | some r => (rooms, r)
  | none =>
    let r := initRoom room_id file_path now
    (rooms ++ [(room_id, r)], r)

/-- `YjsRoomManager.remove_room(room_id)`: delete the entry only when the
room exists and its client count is zero at removal time. -/
def removeRoom (room_id : String) (rooms : List (String × YState)) :
    List (String × YState) :=
  match lookupA rooms room_id with
  | some room => if getClientCount room = 0 then eraseA rooms room_id else rooms
  | none => rooms

/-! ## JSON presence session (`app/collaboration/session_manager.py`) -/

/-- `User` dataclass. -/
structure User where
  id : String
  name : String
  color : String
  avatar : Option String := none
deriving DecidableEq, Repr

/-- `Cursor` dataclass. -/
structure Cursor where
  user_id : String
  file_path : String
  line : Int
  column : Int
  timestamp : String
deriving DecidableEq, Repr

/-- `Selection` dataclass. -/
structure Selection where
  user_id : String
  file_path : String
  start_line : Int
  start_column : Int
  end_line : Int
  end_column : Int
deriving DecidableEq, Repr

/-- The JSON message shapes sent by `CollaborationSession` (discriminated by
their `type` field); payload dictionaries of `document_edit` are opaque. -/
inductive JMsg where
  | user_joined (user : User) (timestamp : String)
  | user_left (user_id : String) (timestamp : String)
  | cursor_update (cursor : Cursor)
  | selection_update (selection : Selection)
  | document_edit (user_id : String) (file_path : String) (operation : String)
      (data : String) (version : Nat) (timestamp : String)
deriving DecidableEq, Repr

/-- The version number carried by a message, when it has one. -/
def versionOf : JMsg → Option Nat
  | .document_edit _ _ _ _ v _ => some v
  | _ => none

/-- Whether a message is a `user_left` departure notification. -/
def isUserLeft : JMsg → Bool
  | .user_left _ _ => true
  | _ => false

/-- `CollaborationSession` state.  `connections` maps user ids to websocket
handles; as for `YState.clients` only the ordered key list is kept. -/
structure CollabState where
  session_id : String
  users : List (String × User)
  connections : List String
  cursors : List (String × Cursor)
  selections : List (String × Selection)
  document_versions : List (String × Nat)
  lastActivity : String
deriving DecidableEq, Repr

/-- Delivery log of a session operation. -/
abbrev JLog := List (String × JMsg)

/-- `CollaborationSession.__init__`. -/
def initSession (session_id : String) (ts : String) : CollabState :=
  { session_id := session_id, users := [], connections := [], cursors := [],
    selections := [], document_versions := [], lastActivity := ts }

mutual

/-- `CollaborationSession.broadcast(message, exclude_user)`: fan out over
`self.connections.items()`, then `remove_user` for each user whose
`send_json` raised. -/
def cBroadcastF (fails : String → Bool) (fuel : Nat) (ts : String) (msg : JMsg)
    (exclude : Option String) (st : CollabState) : CollabState × JLog :=
  let r := sendLoop fails msg exclude st.connections
  let r2 := cRemoveAllF fails fuel ts r.2 st
  (r2.1, r.1 ++ r2.2)
termination_by (fuel, 2, 0)

/-- The clean-up tail of the session `broadcast`. -/
def cRemoveAllF (fails : String → Bool) (fuel : Nat) (ts : String)
    (ds : List String) (st : CollabState) : CollabState × JLog :=
  match ds with
  | [] => (st, [])
  | d :: rest =>
    let r1 := cRemoveUserF fails fuel ts d st
    let r2 := cRemoveAllF fails fuel ts rest r1.1
    (r2.1, r1.2 ++ r2.2)
termination_by (fuel, 1, ds.length)

/-- `CollaborationSession.remove_user(user_id)`: no-op for unknown users;
otherwise delete the user, its connection, cursor and selection, then
broadcast a `user_left` message to everyone left (no exclusion). -/
def cRemoveUserF (fails : String → Bool) (fuel : Nat) (ts : String)
    (uid : String) (st : CollabState) : CollabState × JLog :=
  match fuel with
  | 0 => (st, [])
  | fuel + 1 =>
    if (lookupA st.users uid).isSome then
      let st1 : CollabState :=
        { st with users := eraseA st.users uid,
                  connections := st.connections.filter (fun c => ! (c == uid)),
                  cursors := eraseA st.cursors uid,
                  selections := eraseA st.selections uid }
      cBroadcastF fails fuel ts (.user_left uid ts) none st1
    else
      (st, [])
termination_by (fuel, 0, 0)

end

/-- `CollaborationSession.add_user(user_id, user, websocket)`: register the
user and its connection, refresh `last_activity`, and broadcast a
`user_joined` message to the *other* users. -/
def cAddUserF (fails : String → Bool) (fuel : Nat) (ts : String) (uid : String)
    (u : User) (st : CollabState) : CollabState × JLog :=
  let st1 := { st with users := setA st.users uid u,
                       connections := setK st.connections uid,
                       lastActivity := ts }
  cBroadcastF fails fuel ts (.user_joined u ts) (some uid) st1

/-- `CollaborationSession.update_cursor(user_id, file_path, line, column)`:
store the new cursor (latest wins) and broadcast it excluding the sender. -/
def cUpdateCursorF (fails : String → Bool) (fuel : Nat) (ts : String)
    (uid file_path : String) (line column : Int) (st : CollabState) :
    CollabState × JLog :=
  let cur : Cursor := { user_id := uid, file_path := file_path, line := line,
                        column := column, timestamp := ts }
  let st1 := { st with cursors := setA st.cursors uid cur, lastActivity := ts }
  cBroadcastF fails fuel ts (.cursor_update cur) (some uid) st1

/-- `CollaborationSession.update_selection(...)`: same shape as
`update_cursor` for the selection map. -/
def cUpdateSelectionF (fails : String → Bool) (fuel : Nat) (ts : String)
    (uid file_path : String) (sl sc el ec : Int) (st : CollabState) :
    CollabState × JLog :=
  let sel : Selection := { user_id := uid, file_path := file_path,
                           start_line := sl, start_column := sc,
                           end_line := el, end_column := ec }
  let st1 := { st with selections := setA st.selections uid sel, lastActivity := ts }
  cBroadcastF fails fuel ts (.selection_update sel) (some uid) st1

/-- `CollaborationSession.broadcast_edit(user_id, file_path, operation,
data)`: bump the file's version counter (`get(file_path, 0) + 1`) and
broadcast the edit with the new version, excluding the sender. -/
def cBroadcastEditF (fails : String → Bool) (fuel : Nat) (ts : String)
    (uid file_path operation data : String) (st : CollabState) :
    CollabState × JLog :=
  let new_version := (lookupA st.document_versions file_path).getD 0 + 1
  let st1 := { st with document_versions := setA st.document_versions file_path new_version,
                       lastActivity := ts }
  cBroadcastF fails fuel ts
    (.document_edit uid file_path operation data new_version ts) (some uid) st1

/-- `CollaborationSession.send_to_user(user_id, message)`: unknown users are
a no-op; a send failure triggers `remove_user` for that user. -/
def cSendToUserF (fails : String → Bool) (fuel : Nat) (ts : String)
    (uid : String) (msg : JMsg) (st : CollabState) : CollabState × JLog :=
  if uid ∈ st.connections then
    if fails uid then cRemoveUserF fails fuel ts uid st
    else (st, [(uid, msg)])
  else (st, [])

/-- The public operations of a `CollaborationSession`, used to quantify over
"any sequence of operations" in the version-counter invariant. -/
inductive SOp where
  | add_user (uid : String) (u : User) (ts : String)
  | remove_user (uid : String) (ts : String)
  | update_cursor (uid file_path : String) (line column : Int) (ts : String)
  | update_selection (uid file_path : String) (sl sc el ec : Int) (ts : String)
  | broadcast_edit (uid file_path operation data : String) (ts : String)
  | broadcast_msg (msg : JMsg) (exclude : Option String) (ts : String)
  | send_to_user (uid : String) (msg : JMsg) (ts : String)

/-- Fuel sufficient for any cascade of removals from state `st`. -/
def cFuel (st : CollabState) : Nat := st.connections.length + 1

/-- Apply one session operation with sufficient fuel. -/
def applySOp (fails : String → Bool) (op : SOp) (st : CollabState) :
    CollabState × JLog :=
  match op with
  | .add_user uid u ts => cAddUserF fails (cFuel st) ts uid u st
  | .remove_user uid ts => cRemoveUserF fails (cFuel st) ts uid st
  | .update_cursor uid fp l c ts => cUpdateCursorF fails (cFuel st) ts uid fp l c st
  | .update_selection uid fp sl sc el ec ts =>
    cUpdateSelectionF fails (cFuel st) ts uid fp sl sc el ec st
  | .broadcast_edit uid fp op dt ts => cBroadcastEditF fails (cFuel st) ts uid fp op dt st
  | .broadcast_msg msg ex ts => cBroadcastF fails (cFuel st) ts msg ex st
  | .send_to_user uid msg ts => cSendToUserF fails (cFuel st) ts uid msg st

/-- Run a sequence of session operations, keeping only the state. -/
def runSOps (fails : String → Bool) (ops : List SOp) (st : CollabState) : CollabState :=
  match ops with
  | [] => st
  | op :: rest => runSOps fails rest (applySOp fails op st).1

/-- The per-file version counter (`document_versions.get(file_path, 0)`). -/
def getVer (st : CollabState) (file_path : String) : Nat :=
  (lookupA st.document_versions file_path).getD 0

/-- How many `broadcast_edit` operations an operation contributes for a
given file path (1 for an edit of that file, 0 otherwise). -/
def editsFor (file_path : String) : SOp → Nat
  | .broadcast_edit _ fp _ _ _ => if fp = file_path then 1 else 0
  | _ => 0

/-! ## Session registry (`CollaborationManager`) -/

/-- `CollaborationManager.remove_session(session_id)`: deletes the entry
whenever it exists — unlike `YjsRoomManager.remove_room` there is no
client-count check. -/
def removeSession (session_id : String) (sessions : List (String × CollabState)) :
    List (String × CollabState) :=
  if (lookupA sessions session_id).isSome then eraseA sessions session_id
  else sessions

/-! ## Equation and fan-out lemmas -/

theorem yRemoveAllF_nil (fails : String → Bool) (fuel : Nat) (st : YState) :
    yRemoveAllF fails fuel [] st = (st, []) := by
  rw [yRemoveAllF]

theorem yRemoveAllF_cons (fails : String → Bool) (fuel : Nat) (d : String)
    (rest : List String) (st : YState) :
    yRemoveAllF fails fuel (d :: rest) st =
      ((yRemoveAllF fails fuel rest (yRemoveClientF fails fuel d st).1).1,
        (yRemoveClientF fails fuel d st).2 ++
          (yRemoveAllF fails fuel rest (yRemoveClientF fails fuel d st).1).2) := by
  rw [yRemoveAllF]

theorem yBroadcastF_eq (fails : String → Bool) (fuel : Nat) (msg : Bytes)
    (ex : Option String) (st : YState) :
    yBroadcastF fails fuel msg ex st =
      ((yRemoveAllF fails fuel (sendLoop fails msg ex st.clients).2 st).1,
        (sendLoop fails msg ex st.clients).1 ++
          (yRemoveAllF fails fuel (sendLoop fails msg ex st.clients).2 st).2) := by
  rw [yBroadcastF]

theorem yRemoveClientF_zero (fails : String → Bool) (cid : String) (st : YState) :
    yRemoveClientF fails 0 cid st = (st, []) := by
  rw [yRemoveClientF]

theorem yRemoveClientF_succ (fails : String → Bool) (fuel : Nat) (cid : String)
    (st : YState) :
    yRemoveClientF fails (fuel + 1) cid st =
      (if cid ∈ st.clients then
        yBroadcastF fails fuel [MESSAGE_AWARENESS] none
          { st with clients := st.clients.filter (fun c => ! (c == cid)),
                    awareness_states := eraseA st.awareness_states cid }
      else (st, [])) := by
  rw [yRemoveClientF]

theorem sendLoop_noFail {μ : Type} (fails : String → Bool) (msg : μ)
    (ex : Option String) (cs : List String) (h : ∀ c ∈ cs, fails c = false) :
    sendLoop fails msg ex cs =
      ((cs.filter (fun c => decide (some c ≠ ex))).map (fun c => (c, msg)), []) := by
  induction cs with
  | nil => rfl
  | cons c rest ih =>
    have hc : fails c = false := h c (by simp)
    have hrest : ∀ d ∈ rest, fails d = false := fun d hd => h d (by simp [hd])
    by_cases hex : some c = ex
    · simp [sendLoop, hex, ih hrest]
    · simp [sendLoop, hex, hc, ih hrest]

theorem sendLoop_mem_log {μ : Type} (fails : String → Bool) (msg : μ)
    (ex : Option String) (cs : List String) (p : String × μ)
    (hp : p ∈ (sendLoop fails msg ex cs).1) :
    p.2 = msg ∧ p.1 ∈ cs ∧ some p.1 ≠ ex ∧ fails p.1 = false := by
  induction cs with
  | nil => simp [sendLoop] at hp
  | cons c rest ih =>
    by_cases hex : some c = ex
    · simp only [sendLoop, if_pos hex] at hp
      have := ih hp
      exact ⟨this.1, by simp [this.2.1], this.2.2⟩
    · by_cases hf : fails c
      · simp only [sendLoop, if_neg hex, if_pos hf] at hp
        have := ih hp
        exact ⟨this.1, by simp [this.2.1], this.2.2⟩
      · simp only [sendLoop, if_neg hex, if_neg hf] at hp
        rcases List.mem_cons.mp hp with h1 | h1
        · subst h1
          exact ⟨rfl, by simp, hex, by simpa using hf⟩
        · have := ih h1
          exact ⟨this.1, by simp [this.2.1], this.2.2⟩

theorem sendLoop_oneFail {μ : Type} (fails : String → Bool) (msg : μ)
    (ex : Option String) (cs : List String) (k : String) (hk : fails k = true)
    (hothers : ∀ c ∈ cs, c ≠ k → fails c = false) (hex : ex ≠ some k) :
    sendLoop fails msg ex cs =
      ((cs.filter (fun c => decide (some c ≠ ex ∧ c ≠ k))).map (fun c => (c, msg)),
        cs.filter (fun c => c == k)) := by
  induction cs with
  | nil => rfl
  | cons c rest ih =>
    have hrest : ∀ d ∈ rest, d ≠ k → fails d = false :=
      fun d hd => hothers d (by simp [hd])
    by_cases hck : c = k
    · subst hck
      have hcex : some c ≠ ex := fun hh => hex hh.symm
      simp [sendLoop, fun hh : some c = ex => hex hh.symm, hk, ih hrest, hcex]
    · have hc : fails c = false := hothers c (by simp) hck
      by_cases hcex : some c = ex
      · simp [sendLoop, hcex, ih hrest, hck]
      · simp [sendLoop, hcex, hc, ih hrest, hck]

theorem filter_eq_self_of_ne (cs : List String) (k : String) (h : k ∉ cs) :
    cs.filter (fun c => ! (c == k)) = cs := by
  induction cs with
  | nil => rfl
  | cons c rest ih =>
    have hck : c ≠ k := fun hh => h (by simp [hh])
    have hrest : k ∉ rest := fun hh => h (by simp [hh])
    have hb : (c == k) = false := by simpa using hck
    simp [List.filter_cons, hb, ih hrest]

theorem filter_beq_nil_of_not_mem (cs : List String) (k : String) (h : k ∉ cs) :
    cs.filter (fun c => c == k) = [] := by
  induction cs with
  | nil => rfl
  | cons c rest ih =>
    have hck : (c == k) = false := by
      simpa using fun hh : c = k => h (by simp [hh])
    simp [List.filter_cons, hck, ih (fun hh => h (by simp [hh]))]

theorem filter_beq_singleton_of_nodup (cs : List String) (k : String)
    (hnd : cs.Nodup) (hmem : k ∈ cs) : cs.filter (fun c => c == k) = [k] := by
  induction cs with
  | nil => simp at hmem
  | cons c rest ih =>
    rcases List.mem_cons.mp hmem with h1 | h1
    · subst h1
      have hrest : k ∉ rest := (List.nodup_cons.mp hnd).1
      simp [List.filter_cons, filter_beq_nil_of_not_mem rest k hrest]
    · have hck : (c == k) = false := by
        simpa using fun hh : c = k => (List.nodup_cons.mp hnd).1 (hh ▸ h1)
      simp [List.filter_cons, hck, ih (List.nodup_cons.mp hnd).2 h1]

theorem filter_some_ne_none (cs : List String) :
    cs.filter (fun c => decide (some c ≠ (none : Option String))) = cs := by
  induction cs with
  | nil => rfl
  | cons c rest ih => simp [List.filter_cons, ih]

/-- With no failing recipients, `broadcast` delivers the message to every
non-excluded client, in registry order, and leaves the room state untouched. -/
theorem yBroadcastF_noFail (fails : String → Bool) (fuel : Nat) (msg : Bytes)
    (ex : Option String) (st : YState) (h : ∀ c ∈ st.clients, fails c = false) :
    yBroadcastF fails fuel msg ex st =
      (st, (st.clients.filter (fun c => decide (some c ≠ ex))).map (fun c => (c, msg))) := by
  rw [yBroadcastF_eq, sendLoop_noFail fails msg ex st.clients h]
  simp [yRemoveAllF_nil]

/-- With exactly one failing recipient `k` (not excluded), `broadcast`
delivers to everyone else, then removes `k` (clearing its awareness state)
and broadcasts the empty awareness retraction to the clients left. -/
theorem yBroadcastF_oneFail (fails : String → Bool) (fuel : Nat) (msg : Bytes)
    (ex : Option String) (st : YState) (k : String)
    (hk : fails k = true) (hmem : k ∈ st.clients) (hnd : st.clients.Nodup)
    (hothers : ∀ c ∈ st.clients, c ≠ k → fails c = false) (hex : ex ≠ some k) :
    yBroadcastF fails (fuel + 1) msg ex st =
      ({ st with clients := st.clients.filter (fun c => ! (c == k)),
                 awareness_states := eraseA st.awareness_states k },
       (st.clients.filter (fun c => decide (some c ≠ ex ∧ c ≠ k))).map (fun c => (c, msg))
         ++ (st.clients.filter (fun c => ! (c == k))).map
              (fun c => (c, [MESSAGE_AWARENESS]))) := by
  rw [yBroadcastF_eq, sendLoop_oneFail fails msg ex st.clients k hk hothers hex]
  rw [filter_beq_singleton_of_nodup st.clients k hnd hmem]
  rw [yRemoveAllF_cons]
  rw [yRemoveClientF_succ]
  rw [if_pos hmem]
  have hnf : ∀ c ∈ st.clients.filter (fun c => ! (c == k)), fails c = false := by
    intro c hc
    rcases List.mem_filter.mp hc with ⟨hc1, hc2⟩
    exact hothers c hc1 (by simpa using hc2)
  rw [yBroadcastF_noFail fails fuel [MESSAGE_AWARENESS] none _ hnf]
  rw [yRemoveAllF_nil]
  simp [filter_some_ne_none]

/-- `remove_client` and the broadcast clean-up never touch the stored
document state, at any fuel. -/
theorem yRemove_preserves_doc (fails : String → Bool) : ∀ fuel : Nat,
    (∀ cid st, (yRemoveClientF fails fuel cid st).1.document_state = st.document_state) ∧
    (∀ ds st, (yRemoveAllF fails fuel ds st).1.document_state = st.document_state) ∧
    (∀ msg ex st, (yBroadcastF fails fuel msg ex st).1.document_state = st.document_state) := by
  have hQ : ∀ fuel : Nat,
      (∀ cid st, (yRemoveClientF fails fuel cid st).1.document_state = st.document_state) →
      ∀ ds : List String, ∀ st : YState,
        (yRemoveAllF fails fuel ds st).1.document_state = st.document_state := by
    intro fuel hP ds
    induction ds with
    | nil => intro st; rw [yRemoveAllF_nil]
    | cons d rest ih =>
      intro st
      rw [yRemoveAllF_cons]
      exact (ih _).trans (hP d st)
  have hR : ∀ fuel : Nat,
      (∀ ds st, (yRemoveAllF fails fuel ds st).1.document_state = st.document_state) →
      ∀ (msg : Bytes) (ex : Option String) (st : YState),
        (yBroadcastF fails fuel msg ex st).1.document_state = st.document_state := by
    intro fuel hQ2 msg ex st
    rw [yBroadcastF_eq]
    exact hQ2 _ _
  intro fuel
  induction fuel with
  | zero =>
    have hP : ∀ cid st, (yRemoveClientF fails 0 cid st).1.document_state = st.document_state := by
      intro cid st; rw [yRemoveClientF_zero]
    exact ⟨hP, hQ 0 hP, hR 0 (hQ 0 hP)⟩
  | succ n ih =>
    have hP : ∀ cid st,
        (yRemoveClientF fails (n + 1) cid st).1.document_state = st.document_state := by
      intro cid st
      rw [yRemoveClientF_succ]
      by_cases hm : cid ∈ st.clients
      · rw [if_pos hm]
        exact ih.2.2 _ _ _
      · rw [if_neg hm]
    exact ⟨hP, hQ (n + 1) hP, hR (n + 1) (hQ (n + 1) hP)⟩

theorem cRemoveAllF_nil (fails : String → Bool) (fuel : Nat) (ts : String)
    (st : CollabState) : cRemoveAllF fails fuel ts [] st = (st, []) := by
  rw [cRemoveAllF]

theorem cRemoveAllF_cons (fails : String → Bool) (fuel : Nat) (ts : String)
    (d : String) (rest : List String) (st : CollabState) :
    cRemoveAllF fails fuel ts (d :: rest) st =
      ((cRemoveAllF fails fuel ts rest (cRemoveUserF fails fuel ts d st).1).1,
        (cRemoveUserF fails fuel ts d st).2 ++
          (cRemoveAllF fails fuel ts rest (cRemoveUserF fails fuel ts d st).1).2) := by
  rw [cRemoveAllF]

theorem cBroadcastF_eq (fails : String → Bool) (fuel : Nat) (ts : String)
    (msg : JMsg) (ex : Option String) (st : CollabState) :
    cBroadcastF fails fuel ts msg ex st =
      ((cRemoveAllF fails fuel ts (sendLoop fails msg ex st.connections).2 st).1,
        (sendLoop fails msg ex st.connections).1 ++
          (cRemoveAllF fails fuel ts (sendLoop fails msg ex st.connections).2 st).2) := by
  rw [cBroadcastF]

theorem cRemoveUserF_zero (fails : String → Bool) (ts : String) (uid : String)
    (st : CollabState) : cRemoveUserF fails 0 ts uid st = (st, []) := by
  rw [cRemoveUserF]

theorem cRemoveUserF_succ (fails : String → Bool) (fuel : Nat) (ts : String)
    (uid : String) (st : CollabState) :
    cRemoveUserF fails (fuel + 1) ts uid st =
      (if (lookupA st.users uid).isSome then
        cBroadcastF fails fuel ts (.user_left uid ts) none
          { st with users := eraseA st.users uid,
                    connections := st.connections.filter (fun c => ! (c == uid)),
                    cursors := eraseA st.cursors uid,
                    selections := eraseA st.selections uid }
      else (st, [])) := by
  rw [cRemoveUserF]

/-- With no failing recipients, the session `broadcast` delivers to every
non-excluded connection and leaves the session state untouched. -/
theorem cBroadcastF_noFail (fails : String → Bool) (fuel : Nat) (ts : String)
    (msg : JMsg) (ex : Option String) (st : CollabState)
    (h : ∀ c ∈ st.connections, fails c = false) :
    cBroadcastF fails fuel ts msg ex st =
      (st, (st.connections.filter (fun c => decide (some c ≠ ex))).map (fun c => (c, msg))) := by
  rw [cBroadcastF_eq, sendLoop_noFail fails msg ex st.connections h]
  simp [cRemoveAllF_nil]

/-- With exactly one failing recipient `k` (not excluded), the session
`broadcast` delivers to everyone else, then removes `k` — clearing its user,
connection, cursor and selection — and notifies the remaining users. -/
theorem cBroadcastF_oneFail (fails : String → Bool) (fuel : Nat) (ts : String)
    (msg : JMsg) (ex : Option String) (st : CollabState) (k : String)
    (hk : fails k = true) (hmem : k ∈ st.connections)
    (hku : (lookupA st.users k).isSome) (hnd : st.connections.Nodup)
    (hothers : ∀ c ∈ st.connections, c ≠ k → fails c = false) (hex : ex ≠ some k) :
    cBroadcastF fails (fuel + 1) ts msg ex st =
      ({ st with users := eraseA st.users k,
                 connections := st.connections.filter (fun c => ! (c == k)),
                 cursors := eraseA st.cursors k,
                 selections := eraseA st.selections k },
       (st.connections.filter (fun c => decide (some c ≠ ex ∧ c ≠ k))).map (fun c => (c, msg))
         ++ (st.connections.filter (fun c => ! (c == k))).map
              (fun c => (c, JMsg.user_left k ts))) := by
  rw [cBroadcastF_eq, sendLoop_oneFail fails msg ex st.connections k hk hothers hex]
  rw [filter_beq_singleton_of_nodup st.connections k hnd hmem]
  rw [cRemoveAllF_cons]
  rw [cRemoveUserF_succ]
  rw [if_pos hku]
  have hnf : ∀ c ∈ st.connections.filter (fun c => ! (c == k)), fails c = false := by
    intro c hc
    rcases List.mem_filter.mp hc with ⟨hc1, hc2⟩
    exact hothers c hc1 (by simpa using hc2)
  rw [cBroadcastF_noFail fails fuel ts (.user_left k ts) none _ hnf]
  rw [cRemoveAllF_nil]
  simp [filter_some_ne_none]

/-- `remove_user` and the broadcast clean-up never touch `document_versions`. -/
theorem cRemove_preserves_versions (fails : String → Bool) (ts : String) : ∀ fuel : Nat,
    (∀ uid st, (cRemoveUserF fails fuel ts uid st).1.document_versions = st.document_versions) ∧
    (∀ ds st, (cRemoveAllF fails fuel ts ds st).1.document_versions = st.document_versions) ∧
    (∀ msg ex st, (cBroadcastF fails fuel ts msg ex st).1.document_versions = st.document_versions) := by
  have hQ : ∀ fuel : Nat,
      (∀ uid st, (cRemoveUserF fails fuel ts uid st).1.document_versions = st.document_versions) →
      ∀ ds : List String, ∀ st : CollabState,
        (cRemoveAllF fails fuel ts ds st).1.document_versions = st.document_versions := by
    intro fuel hP ds
    induction ds with
    | nil => intro st; rw [cRemoveAllF_nil]
    | cons d rest ih =>
      intro st
      rw [cRemoveAllF_cons]
      exact (ih _).trans (hP d st)
  have hR : ∀ fuel : Nat,
      (∀ ds st, (cRemoveAllF fails fuel ts ds st).1.document_versions = st.document_versions) →
      ∀ (msg : JMsg) (ex : Option String) (st : CollabState),
        (cBroadcastF fails fuel ts msg ex st).1.document_versions = st.document_versions := by
    intro fuel hQ2 msg ex st
    rw [cBroadcastF_eq]
    exact hQ2 _ _
  intro fuel
  induction fuel with
  | zero =>
    have hP : ∀ uid st,
        (cRemoveUserF fails 0 ts uid st).1.document_versions = st.document_versions := by
      intro uid st; rw [cRemoveUserF_zero]
    exact ⟨hP, hQ 0 hP, hR 0 (hQ 0 hP)⟩
  | succ n ih =>
    have hP : ∀ uid st,
        (cRemoveUserF fails (n + 1) ts uid st).1.document_versions = st.document_versions := by
      intro uid st
      rw [cRemoveUserF_succ]
      by_cases hm : (lookupA st.users uid).isSome
      · rw [if_pos hm]
        exact ih.2.2 _ _ _
      · rw [if_neg hm]
    exact ⟨hP, hQ (n + 1) hP, hR (n + 1) (hQ (n + 1) hP)⟩

/-- Every message that the removal clean-up emits is a `user_left`
notification (at any fuel). -/
theorem cRemove_log_user_left (fails : String → Bool) (ts : String) : ∀ fuel : Nat,
    (∀ uid st, ∀ p ∈ (cRemoveUserF fails fuel ts uid st).2, isUserLeft p.2 = true) ∧
    (∀ ds st, ∀ p ∈ (cRemoveAllF fails fuel ts ds st).2, isUserLeft p.2 = true) ∧
    (∀ msg ex st, isUserLeft msg = true →
      ∀ p ∈ (cBroadcastF fails fuel ts msg ex st).2, isUserLeft p.2 = true) := by
  have hQ : ∀ fuel : Nat,
      (∀ uid st, ∀ p ∈ (cRemoveUserF fails fuel ts uid st).2, isUserLeft p.2 = true) →
      ∀ ds : List String, ∀ st : CollabState,
        ∀ p ∈ (cRemoveAllF fails fuel ts ds st).2, isUserLeft p.2 = true := by
    intro fuel hP ds
    induction ds with
    | nil => intro st p hp; rw [cRemoveAllF_nil] at hp; simp at hp
    | cons d rest ih =>
      intro st p hp
      rw [cRemoveAllF_cons] at hp
      rcases List.mem_append.mp hp with h1 | h1
      · exact hP d st p h1
      · exact ih _ p h1
  have hR : ∀ fuel : Nat,
      (∀ ds st, ∀ p ∈ (cRemoveAllF fails fuel ts ds st).2, isUserLeft p.2 = true) →
      ∀ (msg : JMsg) (ex : Option String) (st : CollabState), isUserLeft msg = true →
        ∀ p ∈ (cBroadcastF fails fuel ts msg ex st).2, isUserLeft p.2 = true := by
    intro fuel hQ2 msg ex st hmsg p hp
    rw [cBroadcastF_eq] at hp
    rcases List.mem_append.mp hp with h1 | h1
    · have := sendLoop_mem_log fails msg ex st.connections p h1
      rw [this.1]; exact hmsg
    · exact hQ2 _ _ p h1
  intro fuel
  induction fuel with
  | zero =>
    have hP : ∀ uid st, ∀ p ∈ (cRemoveUserF fails 0 ts uid st).2, isUserLeft p.2 = true := by
      intro uid st p hp; rw [cRemoveUserF_zero] at hp; simp at hp
    exact ⟨hP, hQ 0 hP, hR 0 (hQ 0 hP)⟩
  | succ n ih =>
    have hP : ∀ uid st,
        ∀ p ∈ (cRemoveUserF fails (n + 1) ts uid st).2, isUserLeft p.2 = true := by
      intro uid st p hp
      rw [cRemoveUserF_succ] at hp
      by_cases hm : (lookupA st.users uid).isSome
      · rw [if_pos hm] at hp
        exact hR n ih.2.1 (.user_left uid ts) none _ (by rfl) p hp
      · rw [if_neg hm] at hp
        simp at hp
    exact ⟨hP, hQ (n + 1) hP, hR (n + 1) (hQ (n + 1) hP)⟩

/-! ## Combined system state and the §8 end-to-end scenario -/

/-- The two process-wide registries: `yjs_room_manager.rooms` and
`collaboration_manager.sessions`. -/
structure SystemState where
  yjsRooms : List (String × YState)
  collabSessions : List (String × CollabState)
deriving DecidableEq, Repr

/-- Result of the §8 end-to-end scenario run. -/
structure C8Out where
  sys : SystemState
  joinALog : YLog
  roomAfterUpdate : YState
  updateLog : YLog
  joinBLog : YLog
deriving Repr

/-- The §8 end-to-end scenario as driven by the `yjs_websocket` handler in
`app/routers/yjs_collaboration.py`: client A resolves the room via
`get_or_create_room` and is added; A sends one `SYNC`/update frame with
payload `X`; client B joins the same room key.  The handler operates only on
`yjs_room_manager` — it never touches the session-level
`collaboration_manager`, so the `collabSessions` registry (the only holder
of per-file `document_versions` counters in the code base) is carried
through unchanged. -/
def c8Scenario (fails : String → Bool) (A B : String) (X : Bytes)
    (room_id file_path : String) (now : Nat) (sys : SystemState) : C8Out :=
  let g := getOrCreateRoom room_id file_path now sys.yjsRooms
  let j1 := yAddClient fails A now g.2
  let u := yHandleMessage fails now A ([MESSAGE_SYNC, 2] ++ X) j1.1
  let j2 := yAddClient fails B now u.1
  { sys := { yjsRooms := setA g.1 room_id j2.1, collabSessions := sys.collabSessions },
    joinALog := j1.2, roomAfterUpdate := u.1, updateLog := u.2, joinBLog := j2.2 }

/-! ## Claim theorems -/

/-- **C9.** A non-empty inbound frame whose type byte is none of
`SYNC(0)`, `AWARENESS(1)`, `AUTH(2)` — in particular the declared
`QUERY_AWARENESS(3)` — is dropped: the client registry, document state and
awareness states are unchanged, nothing is sent to anyone, no client is
removed, and only `last_activity` is refreshed. -/
theorem unknown_frame_dropped (fails : String → Bool) (now : Nat) (cid : String)
    (t : Nat) (rest : Bytes) (st : YState)
    (h0 : t ≠ MESSAGE_SYNC) (h1 : t ≠ MESSAGE_AWARENESS) (h2 : t ≠ MESSAGE_AUTH) :
    yHandleMessage fails now cid (t :: rest) st =
      ({ st with lastActivity := now }, []) := by
  unfold yHandleMessage
  simp [yHandleMessageF, h0, h1, h2]

/-- Witness for C9: a `QUERY_AWARENESS(3)` frame in a two-client room. -/
theorem unknown_frame_dropped_witness :
    ((3 : Nat) ≠ MESSAGE_SYNC ∧ (3 : Nat) ≠ MESSAGE_AWARENESS ∧ (3 : Nat) ≠ MESSAGE_AUTH) ∧
    yHandleMessage (fun _ => false) 7 "c1" [3, 5, 6]
        { initRoom "room1" "/main.py" 0 with clients := ["c1", "c2"] } =
      ({ initRoom "room1" "/main.py" 0 with clients := ["c1", "c2"], lastActivity := 7 }, []) :=
  ⟨⟨by decide, by decide, by decide⟩,
    unknown_frame_dropped (fun _ => false) 7 "c1" 3 [5, 6] _
      (by decide) (by decide) (by decide)⟩

/-- **C1.** A `SYNC` frame with sub-type 1 or 2 and payload `P` from client
`c` replaces the stored document state with exactly `P` (last writer wins —
no merge), and, when no send fails, `bytes([0, 2]) + P` is delivered to
every currently connected client other than `c`, while `c` itself receives
nothing. -/
theorem yjs_sync_update_replaces_and_broadcasts
    (fails : String → Bool) (now : Nat) (c : String) (P : Bytes) (s : Nat)
    (st : YState) (hs : s = 1 ∨ s = 2)
    (hnf : ∀ d ∈ st.clients, fails d = false) :
    (yHandleMessage fails now c ([MESSAGE_SYNC, s] ++ P) st).1 =
      { st with document_state := some P, lastActivity := now } ∧
    (yHandleMessage fails now c ([MESSAGE_SYNC, s] ++ P) st).2 =
      (st.clients.filter (fun d => decide (some d ≠ some c))).map
        (fun d => (d, [MESSAGE_SYNC, 2] ++ P)) ∧
    (∀ d ∈ st.clients, d ≠ c →
      (d, [MESSAGE_SYNC, 2] ++ P) ∈ (yHandleMessage fails now c ([MESSAGE_SYNC, s] ++ P) st).2) ∧
    (∀ m : Bytes, (c, m) ∉ (yHandleMessage fails now c ([MESSAGE_SYNC, s] ++ P) st).2) := by
  have hred : yHandleMessage fails now c ([MESSAGE_SYNC, s] ++ P) st =
      ({ st with document_state := some P, lastActivity := now },
        (st.clients.filter (fun d => decide (some d ≠ some c))).map
          (fun d => (d, [MESSAGE_SYNC, 2] ++ P))) := by
    have hstep : yHandleMessage fails now c ([MESSAGE_SYNC, s] ++ P) st =
        yBroadcastF fails (st.clients.length + 1) ([MESSAGE_SYNC, 2] ++ P) (some c)
          { st with document_state := some P, lastActivity := now } := by
      rcases hs with h | h <;> subst h <;> rfl
    exact hstep.trans (yBroadcastF_noFail fails (st.clients.length + 1)
      ([MESSAGE_SYNC, 2] ++ P) (some c)
      { st with document_state := some P, lastActivity := now } hnf)
  refine ⟨by rw [hred], by rw [hred], ?_, ?_⟩
  · intro d hd hdc
    rw [hred]
    simp only []
    exact List.mem_map.mpr ⟨d, List.mem_filter.mpr ⟨hd, by simpa using hdc⟩, rfl⟩
  · intro m hm
    rw [hred] at hm
    rcases List.mem_map.mp hm with ⟨d, hdf, hde⟩
    have hdc : d = c := congrArg Prod.fst hde
    have := (List.mem_filter.mp hdf).2
    simp [hdc] at this

/-- Witness for C1: sub-type 2, payload `[9, 9]`, three clients, sender
`"a"`. -/
theorem yjs_sync_update_replaces_and_broadcasts_witness :
    ((2 : Nat) = 1 ∨ (2 : Nat) = 2) ∧
    (yHandleMessage (fun _ => false) 4 "a" [MESSAGE_SYNC, 2, 9, 9]
        { initRoom "room1" "/main.py" 0 with clients := ["a", "b", "d"] }).1 =
      { initRoom "room1" "/main.py" 0 with
          clients := ["a", "b", "d"]
          document_state := some [9, 9]
          lastActivity := 4 } ∧
    (yHandleMessage (fun _ => false) 4 "a" [MESSAGE_SYNC, 2, 9, 9]
        { initRoom "room1" "/main.py" 0 with clients := ["a", "b", "d"] }).2 =
      [("b", [0, 2, 9, 9]), ("d", [0, 2, 9, 9])] := by
  have h := yjs_sync_update_replaces_and_broadcasts (fun _ => false) 4 "a" [9, 9] 2
    { initRoom "room1" "/main.py" 0 with clients := ["a", "b", "d"] }
    (Or.inr rfl) (by intro d hd; rfl)
  refine ⟨Or.inr rfl, h.1, ?_⟩
  exact h.2.1.trans (by decide)

/-- **C6 counterexample.** A room whose document state is `None`, with `"c"`
connected: a `SYNC` sub-type-0 request from `"c"` produces *no* message at
all — in particular not the reply `[MESSAGE_SYNC, 1]` with empty payload
that the claim requires when no document state exists. -/
theorem sync_request_empty_state_no_reply_cex :
    (yHandleMessage (fun _ => false) 5 "c" [MESSAGE_SYNC, 0]
        { initRoom "room1" "/f" 0 with clients := ["c"] }).2 = [] ∧
    ([] : YLog) ≠ [("c", [MESSAGE_SYNC, 1])] := by
  exact ⟨rfl, by simp⟩

/-- **C6 (amended).** A `SYNC` sub-type-0 request from a connected client
`c` whose send succeeds is answered — to `c` only — with
`bytes([MESSAGE_SYNC, 1]) + document_state`, *provided* the stored state
exists and is non-empty; when the stored state is `None` or empty, no reply
is sent at all (rather than a reply with empty payload). -/
theorem sync_request_reply_behavior (fails : String → Bool) (now : Nat) (c : String)
    (sv : Bytes) (st : YState) :
    (∀ ds : Bytes, st.document_state = some ds → ds ≠ [] → c ∈ st.clients →
      fails c = false →
      yHandleMessage fails now c ([MESSAGE_SYNC, 0] ++ sv) st =
        ({ st with lastActivity := now }, [(c, [MESSAGE_SYNC, 1] ++ ds)])) ∧
    (docTruthy st.document_state = false →
      yHandleMessage fails now c ([MESSAGE_SYNC, 0] ++ sv) st =
        ({ st with lastActivity := now }, [])) := by
  have hstep : yHandleMessage fails now c ([MESSAGE_SYNC, 0] ++ sv) st =
      ySendSyncStep2 fails c { st with lastActivity := now } := rfl
  constructor
  · intro ds hds hne hmem hfc
    cases ds with
    | nil => exact absurd rfl hne
    | cons a tl =>
      rw [hstep]
      simp [ySendSyncStep2, hmem, hds, docTruthy, hfc]
  · intro hfalsy
    rw [hstep]
    simp [ySendSyncStep2, hfalsy]

/-- Witness for the amended C6: a non-empty state `[7]` is replied to `"c"`
only; a `None` state yields no reply. -/
theorem sync_request_reply_behavior_witness :
    (yHandleMessage (fun _ => false) 5 "c" [MESSAGE_SYNC, 0]
        { initRoom "room1" "/f" 0 with
            clients := ["c", "d"]
            document_state := some [7] }).2 = [("c", [MESSAGE_SYNC, 1, 7])] ∧
    (yHandleMessage (fun _ => false) 5 "c" [MESSAGE_SYNC, 0]
        { initRoom "room1" "/f" 0 with clients := ["c"] }).2 = [] := by
  constructor
  · have h := (sync_request_reply_behavior (fun _ => false) 5 "c" []
      { initRoom "room1" "/f" 0 with
          clients := ["c", "d"]
          document_state := some [7] }).1 [7] rfl (by decide) (by decide) rfl
    exact congrArg Prod.snd h
  · have h := (sync_request_reply_behavior (fun _ => false) 5 "c" []
      { initRoom "room1" "/f" 0 with clients := ["c"] }).2 rfl
    exact congrArg Prod.snd h

/-- **C10.** An empty stored document state (`some []`, produced e.g. by a
`SYNC` sub-type-1 frame with empty payload) makes the room behave at its
interface as if no state existed: a joining client gets no initial-sync
push, and a `SYNC` sub-type-0 request gets no reply at all. -/
theorem empty_document_state_behaves_as_absent (fails : String → Bool) (now : Nat)
    (c cid : String) (sv : Bytes) (st : YState) (h : st.document_state = some []) :
    (∀ s : Nat, s = 1 ∨ s = 2 →
      (yHandleMessage fails now c [MESSAGE_SYNC, s] st).1.document_state = some []) ∧
    yAddClient fails cid now st =
      ({ st with clients := setK st.clients cid, lastActivity := now }, []) ∧
    yHandleMessage fails now c ([MESSAGE_SYNC, 0] ++ sv) st =
      ({ st with lastActivity := now }, []) := by
  refine ⟨?_, ?_, ?_⟩
  · intro s hs
    have hstep : (yHandleMessage fails now c [MESSAGE_SYNC, s] st).1 =
        (yBroadcastF fails (st.clients.length + 1) ([MESSAGE_SYNC, 2] ++ []) (some c)
          { st with document_state := some [], lastActivity := now }).1 := by
      rcases hs with h1 | h1 <;> subst h1 <;> rfl
    rw [hstep, (yRemove_preserves_doc fails (st.clients.length + 1)).2.2]
  · simp [yAddClient, h, docTruthy]
  · have hstep : yHandleMessage fails now c ([MESSAGE_SYNC, 0] ++ sv) st =
        ySendSyncStep2 fails c { st with lastActivity := now } := rfl
    rw [hstep]
    simp [ySendSyncStep2, h, docTruthy]

/-- Witness for C10: a room holding `some []` with clients `"a"`, `"b"`. -/
theorem empty_document_state_behaves_as_absent_witness :
    ({ initRoom "room1" "/f" 0 with
        clients := ["a"]
        document_state := some ([] : Bytes) } : YState).document_state = some [] ∧
    (yAddClient (fun _ => false) "b" 9
        { initRoom "room1" "/f" 0 with
            clients := ["a"]
            document_state := some ([] : Bytes) }).2 = [] ∧
    (yHandleMessage (fun _ => false) 9 "a" [MESSAGE_SYNC, 0]
        { initRoom "room1" "/f" 0 with
            clients := ["a"]
            document_state := some ([] : Bytes) }).2 = [] := by
  have h := empty_document_state_behaves_as_absent (fun _ => false) 9 "a" "b" []
    { initRoom "room1" "/f" 0 with
        clients := ["a"]
        document_state := some ([] : Bytes) } rfl
  exact ⟨rfl, congrArg Prod.snd h.2.1, congrArg Prod.snd h.2.2⟩

/-- **C7 counterexample.** A session registry holding session `"s"` with one
connected user: `remove_session("s")` deletes the entry even though the
client count is 1, contradicting the claim that the registry is left
unchanged when at least one client is connected. -/
theorem remove_session_nonempty_removed_cex :
    removeSession "s"
        [("s", { initSession "s" "t0" with
                   users := [("u1", { id := "u1", name := "Alice", color := "#fff" })]
                   connections := ["u1"] })] = [] ∧
    ({ initSession "s" "t0" with
         users := [("u1", { id := "u1", name := "Alice", color := "#fff" })]
         connections := ["u1"] } : CollabState).users.length = 1 ∧
    removeSession "s"
        [("s", { initSession "s" "t0" with
                   users := [("u1", { id := "u1", name := "Alice", color := "#fff" })]
                   connections := ["u1"] })] ≠
      [("s", { initSession "s" "t0" with
                 users := [("u1", { id := "u1", name := "Alice", color := "#fff" })]
                 connections := ["u1"] })] := by
  refine ⟨rfl, rfl, ?_⟩
  intro hcontra
  rw [show removeSession "s"
      [("s", { initSession "s" "t0" with
                 users := [("u1", { id := "u1", name := "Alice", color := "#fff" })]
                 connections := ["u1"] })] = [] from rfl] at hcontra
  exact List.noConfusion hcontra

/-- **C7 (amended).** `YjsRoomManager.remove_room` deletes an entry only if
the room's client count is zero at removal time and leaves the registry
unchanged otherwise, whereas `CollaborationManager.remove_session` deletes
its entry unconditionally whenever it exists, with no client-count check. -/
theorem registry_remove_policies (rooms : List (String × YState))
    (sessions : List (String × CollabState)) (rid sid : String)
    (room : YState) (sess : CollabState) :
    (lookupA rooms rid = some room → room.clients ≠ [] → removeRoom rid rooms = rooms) ∧
    (lookupA rooms rid = some room → room.clients = [] →
      removeRoom rid rooms = eraseA rooms rid) ∧
    (lookupA rooms rid = none → removeRoom rid rooms = rooms) ∧
    (lookupA sessions sid = some sess → removeSession sid sessions = eraseA sessions sid) ∧
    (lookupA sessions sid = none → removeSession sid sessions = sessions) := by
  refine ⟨?_, ?_, ?_, ?_, ?_⟩
  · intro h hne
    have hlen : getClientCount room ≠ 0 := by
      simpa [getClientCount, List.length_eq_zero] using hne
    simp [removeRoom, h, hlen]
  · intro h hnil
    have hlen : getClientCount room = 0 := by
      simp [getClientCount, hnil]
    simp [removeRoom, h, hlen]
  · intro h
    simp [removeRoom, h]
  · intro h
    simp [removeSession, h]
  · intro h
    simp [removeSession, h]

/-- Witness for the amended C7: a one-client room survives `remove_room`,
an empty room is deleted, and a one-user session is deleted anyway. -/
theorem registry_remove_policies_witness :
    removeRoom "r" [("r", { initRoom "r" "/f" 0 with clients := ["a"] })] =
      [("r", { initRoom "r" "/f" 0 with clients := ["a"] })] ∧
    removeRoom "r" [("r", initRoom "r" "/f" 0)] = [] ∧
    removeSession "s"
        [("s", { initSession "s" "t0" with
                   users := [("u1", { id := "u1", name := "Alice", color := "#fff" })]
                   connections := ["u1"] })] = [] := by
  refine ⟨?_, ?_, ?_⟩
  · exact (registry_remove_policies [("r", { initRoom "r" "/f" 0 with clients := ["a"] })]
      [] "r" "s" { initRoom "r" "/f" 0 with clients := ["a"] }
      (initSession "s" "t0")).1 rfl (by simp)
  · exact ((registry_remove_policies [("r", initRoom "r" "/f" 0)]
      [] "r" "s" (initRoom "r" "/f" 0) (initSession "s" "t0")).2.1 rfl rfl).trans rfl
  · exact ((registry_remove_policies []
      [("s", { initSession "s" "t0" with
                 users := [("u1", { id := "u1", name := "Alice", color := "#fff" })]
                 connections := ["u1"] })] "r" "s" (initRoom "r" "/f" 0)
      { initSession "s" "t0" with
          users := [("u1", { id := "u1", name := "Alice", color := "#fff" })]
          connections := ["u1"] }).2.2.2.1 rfl).trans rfl

/-- Exported session `broadcast` with sufficient fuel. -/
def cBroadcast (fails : String → Bool) (ts : String) (msg : JMsg)
    (ex : Option String) (st : CollabState) : CollabState × JLog :=
  cBroadcastF fails (cFuel st) ts msg ex st

/-- Exported `update_cursor` with sufficient fuel. -/
def cUpdateCursor (fails : String → Bool) (ts : String) (uid file_path : String)
    (line column : Int) (st : CollabState) : CollabState × JLog :=
  cUpdateCursorF fails (cFuel st) ts uid file_path line column st

/-- Exported `update_selection` with sufficient fuel. -/
def cUpdateSelection (fails : String → Bool) (ts : String) (uid file_path : String)
    (sl sc el ec : Int) (st : CollabState) : CollabState × JLog :=
  cUpdateSelectionF fails (cFuel st) ts uid file_path sl sc el ec st

/-- **C5.** When a broadcast hits exactly one failing recipient `k` (not the
excluded sender), the message is still delivered to every other non-excluded
client, exactly `k` is removed — with its awareness state (binary room) or
user/connection/cursor/selection entries (JSON session) cleared — and the
operation returns a plain result (the source catches the send error, so
nothing propagates to the caller), in both protocol variants. -/
theorem broadcast_single_failure_isolation
    (fails : String → Bool) (msg : Bytes) (jmsg : JMsg) (ts : String)
    (ex : Option String) (k : String) (st : YState) (cst : CollabState)
    (hk : fails k = true) (hex : ex ≠ some k)
    (hymem : k ∈ st.clients) (hynd : st.clients.Nodup)
    (hyothers : ∀ c ∈ st.clients, c ≠ k → fails c = false)
    (hcmem : k ∈ cst.connections) (hcnd : cst.connections.Nodup)
    (hcu : (lookupA cst.users k).isSome)
    (hcothers : ∀ c ∈ cst.connections, c ≠ k → fails c = false) :
    ((yBroadcast fails msg ex st).1.clients = st.clients.filter (fun c => ! (c == k)) ∧
     (yBroadcast fails msg ex st).1.awareness_states = eraseA st.awareness_states k ∧
     (yBroadcast fails msg ex st).1.document_state = st.document_state ∧
     (∀ c ∈ st.clients, c ≠ k → some c ≠ ex → (c, msg) ∈ (yBroadcast fails msg ex st).2) ∧
     (∀ m : Bytes, (k, m) ∉ (yBroadcast fails msg ex st).2)) ∧
    ((cBroadcast fails ts jmsg ex cst).1.users = eraseA cst.users k ∧
     (cBroadcast fails ts jmsg ex cst).1.connections =
       cst.connections.filter (fun c => ! (c == k)) ∧
     (cBroadcast fails ts jmsg ex cst).1.cursors = eraseA cst.cursors k ∧
     (cBroadcast fails ts jmsg ex cst).1.selections = eraseA cst.selections k ∧
     (∀ c ∈ cst.connections, c ≠ k → some c ≠ ex →
       (c, jmsg) ∈ (cBroadcast fails ts jmsg ex cst).2) ∧
     (∀ m : JMsg, (k, m) ∉ (cBroadcast fails ts jmsg ex cst).2)) := by
  have hy : yBroadcast fails msg ex st =
      ({ st with clients := st.clients.filter (fun c => ! (c == k)),
                 awareness_states := eraseA st.awareness_states k },
       (st.clients.filter (fun c => decide (some c ≠ ex ∧ c ≠ k))).map (fun c => (c, msg))
         ++ (st.clients.filter (fun c => ! (c == k))).map
              (fun c => (c, [MESSAGE_AWARENESS]))) :=
    yBroadcastF_oneFail fails st.clients.length msg ex st k hk hymem hynd hyothers hex
  have hc : cBroadcast fails ts jmsg ex cst =
      ({ cst with users := eraseA cst.users k,
                  connections := cst.connections.filter (fun c => ! (c == k)),
                  cursors := eraseA cst.cursors k,
                  selections := eraseA cst.selections k },
       (cst.connections.filter (fun c => decide (some c ≠ ex ∧ c ≠ k))).map
          (fun c => (c, jmsg))
         ++ (cst.connections.filter (fun c => ! (c == k))).map
              (fun c => (c, JMsg.user_left k ts))) :=
    cBroadcastF_oneFail fails cst.connections.length ts jmsg ex cst k hk hcmem hcu
      hcnd hcothers hex
  refine ⟨⟨?_, ?_, ?_, ?_, ?_⟩, ⟨?_, ?_, ?_, ?_, ?_, ?_⟩⟩
  · rw [hy]
  · rw [hy]
  · rw [hy]
  · intro c hcm hck hcex
    rw [hy]
    exact List.mem_append_left _
      (List.mem_map.mpr ⟨c, List.mem_filter.mpr ⟨hcm, by simp [hcex, hck]⟩, rfl⟩)
  · intro m hm
    rw [hy] at hm
    rcases List.mem_append.mp hm with h1 | h1
    · rcases List.mem_map.mp h1 with ⟨d, hdf, hde⟩
      have hdk : d = k := congrArg Prod.fst hde
      have := (List.mem_filter.mp hdf).2
      simp [hdk] at this
    · rcases List.mem_map.mp h1 with ⟨d, hdf, hde⟩
      have hdk : d = k := congrArg Prod.fst hde
      have := (List.mem_filter.mp hdf).2
      simp [hdk] at this
  · rw [hc]
  · rw [hc]
  · rw [hc]
  · rw [hc]
  · intro c hcm hck hcex
    rw [hc]
    exact List.mem_append_left _
      (List.mem_map.mpr ⟨c, List.mem_filter.mpr ⟨hcm, by simp [hcex, hck]⟩, rfl⟩)
  · intro m hm
    rw [hc] at hm
    rcases List.mem_append.mp hm with h1 | h1
    · rcases List.mem_map.mp h1 with ⟨d, hdf, hde⟩
      have hdk : d = k := congrArg Prod.fst hde
      have := (List.mem_filter.mp hdf).2
      simp [hdk] at this
    · rcases List.mem_map.mp h1 with ⟨d, hdf, hde⟩
      have hdk : d = k := congrArg Prod.fst hde
      have := (List.mem_filter.mp hdf).2
      simp [hdk] at this

/-- Witness for C5: three clients `"a", "k", "b"` of which only `"k"` fails,
in both variants. -/
theorem broadcast_single_failure_isolation_witness :
    (yBroadcast (fun c => c == "k") [5] none
        { initRoom "r" "/f" 0 with clients := ["a", "k", "b"] }).1.clients =
      ["a", "b"] ∧
    ("a", [5]) ∈ (yBroadcast (fun c => c == "k") [5] none
        { initRoom "r" "/f" 0 with clients := ["a", "k", "b"] }).2 ∧
    (cBroadcast (fun c => c == "k") "t1" (.cursor_update
          { user_id := "a", file_path := "/f", line := 1, column := 2, timestamp := "t1" })
        none
        { initSession "s" "t0" with
            users := [("a", { id := "a", name := "A", color := "#1" }),
                      ("k", { id := "k", name := "K", color := "#2" }),
                      ("b", { id := "b", name := "B", color := "#3" })]
            connections := ["a", "k", "b"] }).1.connections = ["a", "b"] := by
  have h := broadcast_single_failure_isolation (fun c => c == "k") [5]
    (.cursor_update { user_id := "a", file_path := "/f", line := 1, column := 2,
                      timestamp := "t1" }) "t1" none "k"
    { initRoom "r" "/f" 0 with clients := ["a", "k", "b"] }
    { initSession "s" "t0" with
        users := [("a", { id := "a", name := "A", color := "#1" }),
                  ("k", { id := "k", name := "K", color := "#2" }),
                  ("b", { id := "b", name := "B", color := "#3" })]
        connections := ["a", "k", "b"] }
    (by decide) (by decide) (by decide) (by decide) (by decide)
    (by decide) (by decide) (by decide) (by decide)
  exact ⟨h.1.1.trans (by decide), h.1.2.2.2.1 "a" (by decide) (by decide) (by decide),
    h.2.2.1.trans (by decide)⟩

/-- **C4.** `update_cursor` / `update_selection` from user `u` replace the
stored cursor/selection for `u`, and (when no send fails) deliver the
corresponding update message to every other connected user; for *any*
failure pattern, the update message itself is never delivered to `u`'s own
connection (sender exclusion). -/
theorem collab_cursor_selection_update_broadcast
    (fails : String → Bool) (ts : String) (u fp : String)
    (line col sl sc el ec : Int) (st : CollabState)
    (hnf : ∀ c ∈ st.connections, fails c = false) :
    (lookupA (cUpdateCursor fails ts u fp line col st).1.cursors u =
      some { user_id := u, file_path := fp, line := line, column := col,
             timestamp := ts } ∧
     (cUpdateCursor fails ts u fp line col st).2 =
       (st.connections.filter (fun d => decide (some d ≠ some u))).map
         (fun d => (d, JMsg.cursor_update
           { user_id := u, file_path := fp, line := line, column := col,
             timestamp := ts })) ∧
     ∀ fails2 : String → Bool,
       (u, JMsg.cursor_update
           { user_id := u, file_path := fp, line := line, column := col,
             timestamp := ts }) ∉ (cUpdateCursor fails2 ts u fp line col st).2) ∧
    (lookupA (cUpdateSelection fails ts u fp sl sc el ec st).1.selections u =
      some { user_id := u, file_path := fp, start_line := sl, start_column := sc,
             end_line := el, end_column := ec } ∧
     (cUpdateSelection fails ts u fp sl sc el ec st).2 =
       (st.connections.filter (fun d => decide (some d ≠ some u))).map
         (fun d => (d, JMsg.selection_update
           { user_id := u, file_path := fp, start_line := sl, start_column := sc,
             end_line := el, end_column := ec })) ∧
     ∀ fails2 : String → Bool,
       (u, JMsg.selection_update
           { user_id := u, file_path := fp, start_line := sl, start_column := sc,
             end_line := el, end_column := ec }) ∉
         (cUpdateSelection fails2 ts u fp sl sc el ec st).2) := by
  have hcur : cUpdateCursor fails ts u fp line col st =
      ({ st with cursors := setA st.cursors u
                   { user_id := u, file_path := fp, line := line, column := col,
                     timestamp := ts },
                 lastActivity := ts },
        (st.connections.filter (fun d => decide (some d ≠ some u))).map
          (fun d => (d, JMsg.cursor_update
            { user_id := u, file_path := fp, line := line, column := col,
              timestamp := ts }))) :=
    cBroadcastF_noFail fails (cFuel st) ts _ (some u) _ hnf
  have hsel : cUpdateSelection fails ts u fp sl sc el ec st =
      ({ st with selections := setA st.selections u
                   { user_id := u, file_path := fp, start_line := sl, start_column := sc,
                     end_line := el, end_column := ec },
                 lastActivity := ts },
        (st.connections.filter (fun d => decide (some d ≠ some u))).map
          (fun d => (d, JMsg.selection_update
            { user_id := u, file_path := fp, start_line := sl, start_column := sc,
              end_line := el, end_column := ec }))) :=
    cBroadcastF_noFail fails (cFuel st) ts _ (some u) _ hnf
  refine ⟨⟨?_, by rw [hcur], ?_⟩, ⟨?_, by rw [hsel], ?_⟩⟩
  · rw [hcur]
    exact lookupA_setA_self st.cursors u _
  · intro fails2 hm
    simp only [cUpdateCursor, cUpdateCursorF, cBroadcastF_eq] at hm
    rcases List.mem_append.mp hm with h1 | h1
    · exact (sendLoop_mem_log fails2 _ (some u) _ _ h1).2.2.1 rfl
    · have := (cRemove_log_user_left fails2 ts (cFuel st)).2.1 _ _ _ h1
      simp [isUserLeft] at this
  · rw [hsel]
    exact lookupA_setA_self st.selections u _
  · intro fails2 hm
    simp only [cUpdateSelection, cUpdateSelectionF, cBroadcastF_eq] at hm
    rcases List.mem_append.mp hm with h1 | h1
    · exact (sendLoop_mem_log fails2 _ (some u) _ _ h1).2.2.1 rfl
    · have := (cRemove_log_user_left fails2 ts (cFuel st)).2.1 _ _ _ h1
      simp [isUserLeft] at this

/-- Witness for C4: user `"a"` updates cursor and selection among
connections `"a", "b"`. -/
theorem collab_cursor_selection_update_broadcast_witness :
    lookupA (cUpdateCursor (fun _ => false) "t1" "a" "/f" 3 4
        { initSession "s" "t0" with
            users := [("a", { id := "a", name := "A", color := "#1" }),
                      ("b", { id := "b", name := "B", color := "#2" })]
            connections := ["a", "b"] }).1.cursors "a" =
      some { user_id := "a", file_path := "/f", line := 3, column := 4,
             timestamp := "t1" } ∧
    (cUpdateCursor (fun _ => false) "t1" "a" "/f" 3 4
        { initSession "s" "t0" with
            users := [("a", { id := "a", name := "A", color := "#1" }),
                      ("b", { id := "b", name := "B", color := "#2" })]
            connections := ["a", "b"] }).2 =
      [("b", JMsg.cursor_update
        { user_id := "a", file_path := "/f", line := 3, column := 4,
          timestamp := "t1" })] := by
  have h := collab_cursor_selection_update_broadcast (fun _ => false) "t1" "a" "/f"
    3 4 0 0 0 0
    { initSession "s" "t0" with
        users := [("a", { id := "a", name := "A", color := "#1" }),
                  ("b", { id := "b", name := "B", color := "#2" })]
        connections := ["a", "b"] }
    (by intro c hc; rfl)
  exact ⟨h.1.1, h.1.2.1.trans (by decide)⟩

/-- Every single session operation changes the version counter of file `f`
by exactly the number of `broadcast_edit`s for `f` it performs (1 or 0). -/
theorem applySOp_version (fails : String → Bool) (op : SOp) (st : CollabState)
    (f : String) :
    getVer (applySOp fails op st).1 f = getVer st f + editsFor f op := by
  cases op with
  | add_user uid u ts =>
    simp [applySOp, cAddUserF, getVer, editsFor,
      (cRemove_preserves_versions fails ts (cFuel st)).2.2]
  | remove_user uid ts =>
    simp [applySOp, getVer, editsFor,
      (cRemove_preserves_versions fails ts (cFuel st)).1]
  | update_cursor uid fp l c ts =>
    simp [applySOp, cUpdateCursorF, getVer, editsFor,
      (cRemove_preserves_versions fails ts (cFuel st)).2.2]
  | update_selection uid fp sl sc el ec ts =>
    simp [applySOp, cUpdateSelectionF, getVer, editsFor,
      (cRemove_preserves_versions fails ts (cFuel st)).2.2]
  | broadcast_edit uid fp opn dt ts =>
    simp only [applySOp, cBroadcastEditF, getVer, editsFor,
      (cRemove_preserves_versions fails ts (cFuel st)).2.2]
    by_cases hf : fp = f
    · subst hf
      rw [lookupA_setA_self]
      simp
    · rw [lookupA_setA_ne _ _ _ _ hf]
      simp [hf]
  | broadcast_msg msg ex ts =>
    simp [applySOp, getVer, editsFor,
      (cRemove_preserves_versions fails ts (cFuel st)).2.2]
  | send_to_user uid msg ts =>
    simp only [applySOp, cSendToUserF, getVer, editsFor]
    by_cases hm : uid ∈ st.connections
    · rw [if_pos hm]
      by_cases hf : fails uid
      · rw [if_pos hf, (cRemove_preserves_versions fails ts (cFuel st)).1]
        simp
      · rw [if_neg hf]
        simp
    · rw [if_neg hm]
      simp

/-- Over a whole operation sequence the counter grows by the number of
edits for that file. -/
theorem runSOps_version (fails : String → Bool) (ops : List SOp) (st : CollabState)
    (f : String) :
    getVer (runSOps fails ops st) f = getVer st f + (ops.map (editsFor f)).sum := by
  induction ops generalizing st with
  | nil => simp [runSOps]
  | cons op rest ih =>
    simp only [runSOps, List.map_cons, List.sum_cons]
    rw [ih, applySOp_version]
    omega

/-- **C3.** Per-file document version counters of a `CollaborationSession`
start at 0, are bumped by exactly one by each `broadcast_edit` of that file
and by no other operation, never decrease over any operation sequence, and
every `document_edit` message broadcast by the n-th accepted edit carries
version n (so versions are never repeated while the session lives). -/
theorem collab_document_version_monotone (fails : String → Bool)
    (sid ts0 : String) (op : SOp) (ops : List SOp) (st : CollabState)
    (f u fp opn dt ts : String) :
    getVer (applySOp fails op st).1 f = getVer st f + editsFor f op ∧
    getVer st f ≤ getVer (runSOps fails ops st) f ∧
    getVer (initSession sid ts0) f = 0 ∧
    getVer (runSOps fails ops (initSession sid ts0)) f = (ops.map (editsFor f)).sum ∧
    getVer (applySOp fails (.broadcast_edit u fp opn dt ts) st).1 fp =
      getVer st fp + 1 ∧
    (∀ p ∈ (applySOp fails (.broadcast_edit u fp opn dt ts) st).2,
      versionOf p.2 = some (getVer st fp + 1) ∨ versionOf p.2 = none) := by
  refine ⟨applySOp_version fails op st f, ?_, ?_, ?_, ?_, ?_⟩
  · rw [runSOps_version]
    omega
  · simp [getVer, initSession]
  · rw [runSOps_version]
    simp [getVer, initSession]
  · rw [applySOp_version]
    simp [editsFor]
  · intro p hp
    simp only [applySOp, cBroadcastEditF, cBroadcastF_eq] at hp
    rcases List.mem_append.mp hp with h1 | h1
    · left
      rw [(sendLoop_mem_log fails _ (some u) _ _ h1).1]
      rfl
    · right
      have := (cRemove_log_user_left fails ts (cFuel st)).2.1 _ _ _ h1
      cases hm : p.2 with
      | user_left uid2 ts2 => simp [versionOf]
      | user_joined u2 ts2 => simp [isUserLeft, hm] at this
      | cursor_update c2 => simp [isUserLeft, hm] at this
      | selection_update s2 => simp [isUserLeft, hm] at this
      | document_edit a2 b2 c2 d2 e2 f2 => simp [isUserLeft, hm] at this

/-- **C8 (amended).** In the binary room: A joins a fresh room key (no
stored state) and receives no initial-sync push; A's SYNC update with
non-empty payload `X` makes the stored state exactly `X`; B then joins and
the join itself delivers exactly one message to B — the initial push
`bytes([MESSAGE_SYNC, 0]) + X` — before any later broadcast traffic.  The
binary path maintains no per-file version counter: the session-level
registry (the only holder of `document_versions`) is untouched by the whole
scenario. -/
theorem yjs_join_update_join_scenario (fails : String → Bool) (A B : String)
    (X : Bytes) (room_id file_path : String) (now : Nat) (sys : SystemState)
    (hfresh : lookupA sys.yjsRooms room_id = none)
    (hX : X ≠ []) (hA : fails A = false) (hB : fails B = false) :
    (c8Scenario fails A B X room_id file_path now sys).joinALog = [] ∧
    (c8Scenario fails A B X room_id file_path now sys).roomAfterUpdate.document_state =
      some X ∧
    (c8Scenario fails A B X room_id file_path now sys).joinBLog =
      [(B, [MESSAGE_SYNC, 0] ++ X)] ∧
    (c8Scenario fails A B X room_id file_path now sys).sys.collabSessions =
      sys.collabSessions := by
  have hroom0 : getOrCreateRoom room_id file_path now sys.yjsRooms =
      (sys.yjsRooms ++ [(room_id, initRoom room_id file_path now)],
        initRoom room_id file_path now) := by
    simp [getOrCreateRoom, hfresh]
  have hj1 : yAddClient fails A now (initRoom room_id file_path now) =
      ((⟨room_id, file_path, [A], none, [], now⟩ : YState), []) := rfl
  have hstep : yHandleMessage fails now A ([MESSAGE_SYNC, 2] ++ X)
      (⟨room_id, file_path, [A], none, [], now⟩ : YState) =
      yBroadcastF fails 2 ([MESSAGE_SYNC, 2] ++ X) (some A)
        (⟨room_id, file_path, [A], some X, [], now⟩ : YState) := rfl
  have hnfA : ∀ c ∈ (⟨room_id, file_path, [A], some X, [], now⟩ : YState).clients,
      fails c = false := by
    intro c hc
    have : c = A := by simpa using hc
    rw [this, hA]
  have hu : yHandleMessage fails now A ([MESSAGE_SYNC, 2] ++ X)
      (⟨room_id, file_path, [A], none, [], now⟩ : YState) =
      ((⟨room_id, file_path, [A], some X, [], now⟩ : YState), []) := by
    rw [hstep, yBroadcastF_noFail fails 2 _ (some A) _ hnfA]
    simp
  have hdt : docTruthy (some X) = true := by
    cases X with
    | nil => exact absurd rfl hX
    | cons a tl => rfl
  have hj2 : yAddClient fails B now (⟨room_id, file_path, [A], some X, [], now⟩ : YState) =
      ((⟨room_id, file_path, setK [A] B, some X, [], now⟩ : YState),
        [(B, [MESSAGE_SYNC, 0] ++ X)]) := by
    simp [yAddClient, hdt, hB]
  simp only [List.cons_append, List.nil_append] at hu hj2
  refine ⟨?_, ?_, ?_, ?_⟩ <;>
    simp [c8Scenario, hroom0, hj1, hu, hj2]

/-- Witness for the amended C8: `A`, `B`, payload `[42]`, a fresh registry
holding one (irrelevant) collaboration session. -/
theorem yjs_join_update_join_scenario_witness :
    (c8Scenario (fun _ => false) "A" "B" [42] "proj1:/main.py" "/main.py" 1
        ⟨[], [("proj1", initSession "proj1" "t0")]⟩).joinALog = [] ∧
    (c8Scenario (fun _ => false) "A" "B" [42] "proj1:/main.py" "/main.py" 1
        ⟨[], [("proj1", initSession "proj1" "t0")]⟩).roomAfterUpdate.document_state =
      some [42] ∧
    (c8Scenario (fun _ => false) "A" "B" [42] "proj1:/main.py" "/main.py" 1
        ⟨[], [("proj1", initSession "proj1" "t0")]⟩).joinBLog = [("B", [0, 0, 42])] := by
  have h := yjs_join_update_join_scenario (fun _ => false) "A" "B" [42]
    "proj1:/main.py" "/main.py" 1 ⟨[], [("proj1", initSession "proj1" "t0")]⟩
    rfl (by simp) rfl rfl
  exact ⟨h.1, h.2.1, h.2.2.1⟩

/-- **C8 counterexample.** Running the full scenario concretely: the room's
stored state does become `[42]` and B does receive the initial push, but no
version counter anywhere equals 1 afterwards — the session registry (sole
holder of `document_versions` in the code) is untouched and the counter for
`"/main.py"` is still 0, where the claim demands 1. -/
theorem yjs_scenario_no_version_counter_cex :
    (c8Scenario (fun _ => false) "A" "B" [42] "proj1:/main.py" "/main.py" 1
        ⟨[], [("proj1", initSession "proj1" "t0")]⟩).sys.collabSessions =
      [("proj1", initSession "proj1" "t0")] ∧
    getVer (initSession "proj1" "t0") "/main.py" = 0 ∧
    (c8Scenario (fun _ => false) "A" "B" [42] "proj1:/main.py" "/main.py" 1
        ⟨[], [("proj1", initSession "proj1" "t0")]⟩).roomAfterUpdate.document_state =
      some [42] ∧
    (0 : Nat) ≠ 1 := by
  refine ⟨rfl, rfl, ?_, by decide⟩
  have hstep : (c8Scenario (fun _ => false) "A" "B" [42] "proj1:/main.py" "/main.py" 1
      ⟨[], [("proj1", initSession "proj1" "t0")]⟩).roomAfterUpdate =
      (yHandleMessage (fun _ => false) 1 "A" ([MESSAGE_SYNC, 2] ++ [42])
        (⟨"proj1:/main.py", "/main.py", ["A"], none, [], 1⟩ : YState)).1 := rfl
  rw [hstep]
  have hred : yHandleMessage (fun _ => false) 1 "A" ([MESSAGE_SYNC, 2] ++ [42])
      (⟨"proj1:/main.py", "/main.py", ["A"], none, [], 1⟩ : YState) =
      yBroadcastF (fun _ => false) 2 ([MESSAGE_SYNC, 2] ++ [42]) (some "A")
        (⟨"proj1:/main.py", "/main.py", ["A"], some [42], [], 1⟩ : YState) := rfl
  rw [hred, yBroadcastF_noFail (fun _ => false) 2 _ (some "A") _ (by intro c hc; rfl)]

/-- An unblocked, in-window, under-limit check is allowed and bumps the
counter. -/
theorem rlCheckEntry_allowed (R W B : Nat) (i : Nat) (t0 t : Int)
    (hwin : t - t0 ≤ (W : Int)) (hcnt : i + 1 ≤ R) :
    rlCheckEntry ⟨R, W, B⟩ t (some ⟨i, t0, none⟩) =
      ((true, none), ⟨i + 1, t0, none⟩) := by
  have h1 : ¬ t - t0 > (W : Int) := not_lt.mpr hwin
  have h2 : ¬ i + 1 > R := Nat.not_lt.mpr hcnt
  simp [rlCheckEntry, rlCheckEntry.rlCheckStep, h1, h2]

/-- The very first check for a client creates a fresh entry and is allowed
(when at least one request is permitted). -/
theorem rlCheckEntry_fresh (R W B : Nat) (t : Int) (hR : 1 ≤ R) :
    rlCheckEntry ⟨R, W, B⟩ t none = ((true, none), ⟨1, t, none⟩) := by
  have h1 : ¬ t - t > (W : Int) := by omega
  have h2 : ¬ 0 + 1 > R := by omega
  simp [rlCheckEntry, rlCheckEntry.rlCheckStep, h1, h2]

/-- The check that pushes the counter past the limit rejects and sets
`blocked_until = now + block_duration`. -/
theorem rlCheckEntry_over_limit (R W B : Nat) (i : Nat) (t0 t : Int)
    (hwin : t - t0 ≤ (W : Int)) (hcnt : R < i + 1) :
    rlCheckEntry ⟨R, W, B⟩ t (some ⟨i, t0, none⟩) =
      ((false, some (.blockedFor B)), ⟨i + 1, t0, some (t + (B : Int))⟩) := by
  have h1 : ¬ t - t0 > (W : Int) := not_lt.mpr hwin
  simp [rlCheckEntry, rlCheckEntry.rlCheckStep, h1, hcnt]

/-- A check while the block is active rejects with the remaining seconds and
leaves the entry untouched. -/
theorem rlCheckEntry_blocked (R W B : Nat) (i : Nat) (t0 b t : Int)
    (hb : b ≠ 0) (ht : t < b) :
    rlCheckEntry ⟨R, W, B⟩ t (some ⟨i, t0, some b⟩) =
      ((false, some (.tryAgainIn (b - t))), ⟨i, t0, some b⟩) := by
  simp [rlCheckEntry, blockedTruthy, hb, ht]

/-- A check after the block elapsed *and* after the window expired resets
the entry and is allowed. -/
theorem rlCheckEntry_post_block_reset (R W B : Nat) (i : Nat) (t0 b t : Int)
    (hb : ¬ t < b) (hwin : t - t0 > (W : Int)) (hR : 1 ≤ R) :
    rlCheckEntry ⟨R, W, B⟩ t (some ⟨i, t0, some b⟩) =
      ((true, none), ⟨1, t, none⟩) := by
  have h2 : ¬ 0 + 1 > R := by omega
  simp [rlCheckEntry, rlCheckEntry.rlCheckStep, blockedTruthy, hb, hwin, h2]

/-- A run of in-window checks from an unblocked counter at `i`, staying
within the limit, is allowed throughout. -/
theorem runEntryChecks_allowed (R W B : Nat) (ts : List Int) :
    ∀ (i : Nat) (t0 : Int), i + ts.length ≤ R → (∀ t ∈ ts, t - t0 ≤ (W : Int)) →
    runEntryChecks ⟨R, W, B⟩ ts (some ⟨i, t0, none⟩) =
      (ts.map (fun _ => ((true, none) : Bool × Option RLReason)),
        some ⟨i + ts.length, t0, none⟩) := by
  induction ts with
  | nil =>
    intro i t0 _ _
    simp [runEntryChecks]
  | cons t rest ih =>
    intro i t0 hcnt hwin
    have hlen : i + (rest.length + 1) ≤ R := by simpa using hcnt
    have h1 := rlCheckEntry_allowed R W B i t0 t (hwin t (by simp)) (by omega)
    have h2 := ih (i + 1) t0 (by omega) (fun u hu => hwin u (by simp [hu]))
    simp only [runEntryChecks, h1, h2]
    have h3 : i + 1 + rest.length = i + (t :: rest).length := by
      simp
      omega
    rw [h3]
    simp

/-- **C2 counterexample.** With `max_requests = 1`, `window = 60`,
`block_duration = 5`: two checks at time 0 trigger a block until time 5,
and the check at time 6 — strictly after the block has elapsed — is *still*
rejected, because the 60-second window has not expired so the counter is
not reset; the claim demands that check be allowed in a fresh window. -/
theorem rate_limit_no_fresh_restart_cex :
    (runEntryChecks ⟨1, 60, 5⟩ [0, 0] none).2 = some ⟨2, 0, some 5⟩ ∧
    ¬ (6 : Int) < 5 ∧
    (runEntryChecks ⟨1, 60, 5⟩ [0, 0, 6] none).1.map Prod.fst =
      [true, false, false] := by
  exact ⟨by decide, by decide, by decide⟩

/-- **C2 (amended).** Fixed-window behavior of the in-memory limiter for
one client id: the map-level check defers to the per-entry transition; from
a fresh entry, up to R checks within W seconds of the first are all
allowed; the check exceeding R within the window is rejected and sets
`blocked_until = now + B`; checks before `blocked_until` are rejected with
the remaining seconds; and once the block has elapsed **and the window has
also expired** (`now - window_start > W`, which is guaranteed whenever
`B > W`), the counter resets and the next R checks are allowed afresh. -/
theorem rate_limit_fixed_window_behavior (R W B : Nat) (cid : String)
    (m : List (String × RateLimitEntry)) (now : Int) :
    (checkRateLimitMemory ⟨R, W, B⟩ now cid m =
      ((rlCheckEntry ⟨R, W, B⟩ now (lookupA m cid)).1,
        setA m cid (rlCheckEntry ⟨R, W, B⟩ now (lookupA m cid)).2)) ∧
    (∀ (t0 : Int) (rest : List Int), 1 + rest.length ≤ R →
      (∀ t ∈ rest, t - t0 ≤ (W : Int)) →
      runEntryChecks ⟨R, W, B⟩ (t0 :: rest) none =
        ((t0 :: rest).map (fun _ => ((true, none) : Bool × Option RLReason)),
          some ⟨(t0 :: rest).length, t0, none⟩)) ∧
    (∀ (t0 t : Int), t - t0 ≤ (W : Int) →
      rlCheckEntry ⟨R, W, B⟩ t (some ⟨R, t0, none⟩) =
        ((false, some (.blockedFor B)), ⟨R + 1, t0, some (t + (B : Int))⟩)) ∧
    (∀ (i : Nat) (t0 b t : Int), b ≠ 0 → t < b →
      rlCheckEntry ⟨R, W, B⟩ t (some ⟨i, t0, some b⟩) =
        ((false, some (.tryAgainIn (b - t))), ⟨i, t0, some b⟩)) ∧
    (∀ (i : Nat) (t0 b t : Int) (rest : List Int), ¬ t < b →
      t - t0 > (W : Int) → 1 + rest.length ≤ R →
      (∀ u ∈ rest, u - t ≤ (W : Int)) →
      runEntryChecks ⟨R, W, B⟩ (t :: rest) (some ⟨i, t0, some b⟩) =
        ((t :: rest).map (fun _ => ((true, none) : Bool × Option RLReason)),
          some ⟨(t :: rest).length, t, none⟩)) := by
  refine ⟨rfl, ?_, ?_, ?_, ?_⟩
  · intro t0 rest hcnt hwin
    have hfresh := rlCheckEntry_fresh R W B t0 (by omega)
    have hrun := runEntryChecks_allowed R W B rest 1 t0 (by omega) hwin
    simp only [runEntryChecks, hfresh, hrun]
    have h3 : 1 + rest.length = (t0 :: rest).length := by simp [Nat.add_comm]
    rw [h3]
    simp
  · intro t0 t hwin
    exact rlCheckEntry_over_limit R W B R t0 t hwin (by omega)
  · intro i t0 b t hb ht
    exact rlCheckEntry_blocked R W B i t0 b t hb ht
  · intro i t0 b t rest hb hwin hcnt hrest
    have hreset := rlCheckEntry_post_block_reset R W B i t0 b t hb hwin (by omega)
    have hrun := runEntryChecks_allowed R W B rest 1 t (by omega) hrest
    simp only [runEntryChecks, hreset, hrun]
    have h3 : 1 + rest.length = (t :: rest).length := by simp [Nat.add_comm]
    rw [h3]
    simp

/-- Witness for the amended C2 with `R = 2, W = 10, B = 20`: two allowed
checks, the third blocked for 20 s, a rejected retry with 15 s remaining,
and an allowed fresh check once both block and window have passed. -/
theorem rate_limit_fixed_window_behavior_witness :
    runEntryChecks ⟨2, 10, 20⟩ [0, 3] none =
      ([(true, none), (true, none)], some ⟨2, 0, none⟩) ∧
    rlCheckEntry ⟨2, 10, 20⟩ 4 (some ⟨2, 0, none⟩) =
      ((false, some (.blockedFor 20)), ⟨3, 0, some 24⟩) ∧
    rlCheckEntry ⟨2, 10, 20⟩ 9 (some ⟨3, 0, some 24⟩) =
      ((false, some (.tryAgainIn 15)), ⟨3, 0, some 24⟩) ∧
    runEntryChecks ⟨2, 10, 20⟩ [24] (some ⟨3, 0, some 24⟩) =
      ([(true, none)], some ⟨1, 24, none⟩) := by
  have h := rate_limit_fixed_window_behavior 2 10 20 "c" [] 0
  refine ⟨?_, ?_, ?_, ?_⟩
  · exact h.2.1 0 [3] (by decide) (by decide)
  · exact h.2.2.1 0 4 (by decide)
  · exact h.2.2.2.1 3 0 24 9 (by decide) (by decide)
  · exact h.2.2.2.2 3 0 24 24 [] (by decide) (by decide) (by decide) (by simp)
